import Mathlib

/-!
Verification of the room-availability and booking-conflict engine of the
Stay Palms Texas hotel front-desk application.

The embedding models calendar dates as integers (days since an arbitrary
epoch) and instants as integers (minutes since that epoch's midnight).
Wall-clock times of day ("HH:MM" strings in the source) are modelled as
minutes after midnight (hours*60 + minutes, the value the source computes
by splitting the string). The local time zone is modelled by its offset
`tz` in minutes (the value of JavaScript's getTimezoneOffset(): the number
of minutes one must add to a UTC-midnight instant to reach the local
midnight instant of the same calendar date).
-/

namespace StayPalms

/-- Reservation status: 'confirmed' | 'checked-in' | 'checked-out' | 'cancelled'
(src/types/index.ts). -/
inductive RStatus where
  | confirmed
  | checkedIn
  | checkedOut
  | cancelled
deriving DecidableEq, Repr

/-- The fields of `Reservation` (src/types/index.ts) relevant to the engine.
Dates are calendar-day numbers. -/
structure Reservation where
  id : String
  customerId : String
  checkInDate : Int
  checkOutDate : Int
  roomType : String
  specificRoomId : Option String
  numberOfGuests : Nat
  totalAmount : Int
  status : RStatus
  cancellationComment : Option String
  reminderSent : Bool
  createdAt : Int
deriving DecidableEq, Repr

/-- The `Room` record (src/types/index.ts). -/
structure Room where
  id : String
  roomNumber : String
  roomTypeId : String
  isActive : Bool
deriving DecidableEq, Repr

/-- The engine-relevant fields of `HotelSettings` (src/types/index.ts):
the room roster and the check-in / check-out policy times (minutes after
midnight). -/
structure HotelSettings where
  rooms : List Room
  checkInTime : Nat
  checkOutTime : Nat
deriving DecidableEq, Repr

/-- Embedding of `createTimeAwareDate` as defined inside `checkRoomAvailability` in
src/App.tsx (lines 190-211): the date is normalized to UTC midnight
(`Date.UTC`, `setUTCHours`), then the wall-clock time is added.
Result: minutes since epoch. -/
def createTimeAwareDateApp (day : Int) (timeOfDay : Nat) : Int :=
  day * 1440 + timeOfDay

/-- Embedding of `createTimeAwareDate` as defined in
src/components/ReservationForm.tsx (lines 51-72): the date is normalized
to *local* midnight (`new Date(y, m-1, d)`, `setHours`), then the
wall-clock time is added. `tz` is the local zone's getTimezoneOffset()
in minutes, so local midnight of day `d` is the instant
`d*1440 + tz`. Result: minutes since epoch. -/
def createTimeAwareDateForm (tz : Int) (day : Int) (timeOfDay : Nat) : Int :=
  day * 1440 + tz + timeOfDay

/-- The candidate reservation passed to `checkRoomAvailability`
(an `Omit<Reservation, 'id' | 'createdAt' | 'reminderSent'>`): only the
fields the availability check reads. -/
structure CandidateReservation where
  checkInDate : Int
  checkOutDateRes : Int
  roomType : String
deriving DecidableEq, Repr

/-- The per-reservation filter body inside `checkRoomAvailability`
(src/App.tsx lines 226-242): keep a reservation when its status is
neither cancelled nor checked-out, its room type matches the candidate's,
and its time-aware window overlaps the current night's window
`[curCI, curCO)` via `!(resCheckOut <= currentCheckIn || resCheckIn >= currentCheckOut)`. -/
def occupiesNight (hs : HotelSettings) (rt : String) (curCI curCO : Int)
    (r : Reservation) : Bool :=
  !(r.status = RStatus.cancelled || r.status = RStatus.checkedOut) &&
  r.roomType = rt &&
  (let resCheckIn := createTimeAwareDateApp r.checkInDate hs.checkInTime
   let resCheckOut := createTimeAwareDateApp r.checkOutDate hs.checkOutTime
   !(resCheckOut ≤ curCI || resCheckIn ≥ curCO))

/-- One iteration of the `while (currentDate < checkOutDate)` loop in
`checkRoomAvailability`: decide whether the night starting on `night` is
overbooked (`occupiedRoomsOfType + 1 > roomsOfType`). -/
def nightOverbooked (hs : HotelSettings) (reservations : List Reservation)
    (nr : CandidateReservation) (night : Int) : Bool :=
  let currentCheckIn := createTimeAwareDateApp night hs.checkInTime
  let currentCheckOut := createTimeAwareDateApp (night + 1) hs.checkOutTime
  let occupiedRoomsOfType :=
    (reservations.filter (occupiesNight hs nr.roomType currentCheckIn currentCheckOut)).length
  let roomsOfType :=
    ((hs.rooms.filter (fun room => room.isActive)).filter
      (fun room => room.roomTypeId = nr.roomType)).length
  occupiedRoomsOfType + 1 > roomsOfType

/-- The night-iteration loop of `checkRoomAvailability`, with the
iteration count made explicit as fuel: the source loop runs once per night
from `checkInDate` while `currentDate < checkOutDate`. -/
def checkRoomAvailabilityAux (hs : HotelSettings) (reservations : List Reservation)
    (nr : CandidateReservation) : Nat → Int → List Int
  | 0, _ => []
  | n + 1, currentDate =>
    (if nightOverbooked hs reservations nr currentDate then [currentDate] else []) ++
    checkRoomAvailabilityAux hs reservations nr n (currentDate + 1)

/-- Embedding of `checkRoomAvailability` (src/App.tsx lines 185-257): returns the list
of overbooked nights of the candidate stay. -/
def checkRoomAvailability (hs : HotelSettings) (reservations : List Reservation)
    (nr : CandidateReservation) : List Int :=
  checkRoomAvailabilityAux hs reservations nr
    (nr.checkOutDateRes - nr.checkInDate).toNat nr.checkInDate

/-- Spec-side description of the availability check (spec §4.2, claim C1):
the overlap test written as the half-open rule `a < d AND c < b`, where
`[a,b)` is the night's window and `[c,d)` the existing reservation's
window. -/
def specOccupiesNight (hs : HotelSettings) (rt : String) (night : Int)
    (r : Reservation) : Bool :=
  let a := createTimeAwareDateApp night hs.checkInTime
  let b := createTimeAwareDateApp (night + 1) hs.checkOutTime
  let c := createTimeAwareDateApp r.checkInDate hs.checkInTime
  let d := createTimeAwareDateApp r.checkOutDate hs.checkOutTime
  decide (a < d) && decide (c < b) &&
  !(r.status = RStatus.cancelled || r.status = RStatus.checkedOut) &&
  r.roomType = rt

/-- Spec-side description (claim C1): the nights of the stay, in order,
from check-in up to but not including check-out, keeping exactly those
whose occupied count plus one exceeds the number of active rooms of the
candidate's room type. -/
def overbookedNightsSpec (hs : HotelSettings) (reservations : List Reservation)
    (nr : CandidateReservation) : List Int :=
  (((List.range (nr.checkOutDateRes - nr.checkInDate).toNat).map
      (fun (i : Nat) => nr.checkInDate + (i : Int))).filter
    (fun night =>
      (reservations.filter (specOccupiesNight hs nr.roomType night)).length + 1 >
      ((hs.rooms.filter (fun room => room.isActive && room.roomTypeId = nr.roomType)).length)))

/-- The per-reservation filter body shared by `getAvailableRooms`
(src/components/ReservationForm.tsx lines 110-129) and the identical block
inside `getNextAvailableDateForRequestedDuration` (lines 195-214): skip
the reservation being edited, skip cancelled / checked-out reservations,
skip other room types, and keep exactly the reservations whose local
time-aware window overlaps `[newCI, newCO)` via
`!(resCheckOut <= newCheckIn || resCheckIn >= newCheckOut)`. -/
def formKeepsReservation (tz : Int) (hs : HotelSettings) (rt : String)
    (excludeId : Option String) (newCI newCO : Int) (r : Reservation) : Bool :=
  !(excludeId = some r.id) &&
  !(r.status = RStatus.cancelled || r.status = RStatus.checkedOut) &&
  r.roomType = rt &&
  (let resCheckIn := createTimeAwareDateForm tz r.checkInDate hs.checkInTime
   let resCheckOut := createTimeAwareDateForm tz r.checkOutDate hs.checkOutTime
   !(resCheckOut ≤ newCI || resCheckIn ≥ newCO))

/-- Embedding of `getAvailableRooms` (src/components/ReservationForm.tsx lines 88-153):
active rooms of the requested type, minus rooms pinned by overlapping
specific-room reservations, truncated to the pool size reduced by the
count of overlapping generic reservations. `Math.max(0, ...)` is Nat
truncated subtraction here. `excludeId` is `initialData?.id`. -/
def getAvailableRooms (tz : Int) (rooms : List Room) (existing : List Reservation)
    (hs : HotelSettings) (rt : String) (ci co : Int)
    (excludeId : Option String) : List Room :=
  let roomsOfType := rooms.filter (fun room => room.roomTypeId = rt && room.isActive)
  let newCheckIn := createTimeAwareDateForm tz ci hs.checkInTime
  let newCheckOut := createTimeAwareDateForm tz co hs.checkOutTime
  let overlapping := existing.filter
    (formKeepsReservation tz hs rt excludeId newCheckIn newCheckOut)
  let specificRoomBookings := overlapping.filterMap (fun r => r.specificRoomId)
  let genericBookingsCount := (overlapping.filter (fun r => r.specificRoomId = none)).length
  let availableSpecificRooms := roomsOfType.filter
    (fun room => !(specificRoomBookings.contains room.id))
  let totalAvailableRooms := availableSpecificRooms.length - genericBookingsCount
  availableSpecificRooms.take totalAvailableRooms

/-- The pool-reduction block evaluated at one candidate window inside
`getNextAvailableDateForRequestedDuration`
(src/components/ReservationForm.tsx lines 188-236): the number of rooms
still bookable for the window `[s, e)`. -/
def availableCountForPeriod (tz : Int) (rooms : List Room) (existing : List Reservation)
    (hs : HotelSettings) (rt : String) (excludeId : Option String)
    (s e : Int) : Nat :=
  let roomsOfType := rooms.filter (fun room => room.roomTypeId = rt && room.isActive)
  let potentialCheckIn := createTimeAwareDateForm tz s hs.checkInTime
  let potentialCheckOut := createTimeAwareDateForm tz e hs.checkOutTime
  let overlapping := existing.filter
    (formKeepsReservation tz hs rt excludeId potentialCheckIn potentialCheckOut)
  let specificRoomBookings := overlapping.filterMap (fun r => r.specificRoomId)
  let genericBookingsCount := (overlapping.filter (fun r => r.specificRoomId = none)).length
  let availableSpecificRooms := roomsOfType.filter
    (fun room => !(specificRoomBookings.contains room.id))
  availableSpecificRooms.length - genericBookingsCount

/-- The bounded forward scan of `getNextAvailableDateForRequestedDuration`
(`for (let i = 0; i < maxSearchDays; i++)`), with the remaining iteration
count as fuel: return the first candidate start date whose reduced pool
is non-empty. -/
def getNextAvailableAux (tz : Int) (rooms : List Room) (existing : List Reservation)
    (hs : HotelSettings) (rt : String) (excludeId : Option String)
    (dur : Int) : Nat → Int → Option Int
  | 0, _ => none
  | n + 1, searchDate =>
    if availableCountForPeriod tz rooms existing hs rt excludeId
        searchDate (searchDate + dur) > 0 then
      some searchDate
    else
      getNextAvailableAux tz rooms existing hs rt excludeId dur n (searchDate + 1)

/-- Embedding of `getNextAvailableDateForRequestedDuration`
(src/components/ReservationForm.tsx lines 156-243): duration is
`checkOutDate - checkInDate`; nothing is searched when the duration is
non-positive or no active room of the type exists; otherwise scan at most
365 days starting at `max(today, checkInDate + 1)`. -/
def getNextAvailableDateForRequestedDuration (tz : Int) (rooms : List Room)
    (existing : List Reservation) (hs : HotelSettings) (rt : String)
    (ci co today : Int) (excludeId : Option String) : Option Int :=
  let requestedDuration := co - ci
  if requestedDuration ≤ 0 then none
  else
    let roomsOfType := rooms.filter (fun room => room.roomTypeId = rt && room.isActive)
    if roomsOfType.length = 0 then none
    else
      getNextAvailableAux tz rooms existing hs rt excludeId requestedDuration
        365 (max today (ci + 1))

/-- JavaScript truthiness of the optional comment in
`if (status === 'cancelled' && comment)` (src/unnamed/part_004 line 294):
absent and empty-string comments are falsy. -/
def commentTruthy : Option String → Bool
  | none => false
  | some s => !(s = "")

/-- The effect of the supabase row update in `updateReservationStatus`
(src/unnamed/part_004 lines 288-314) on the reservation with the given
id: the `status` column is always written; the `cancellation_comment`
column is written only when the target status is cancelled and the
comment is truthy; every other column is untouched. -/
def updateOne (id : String) (st : RStatus) (comment : Option String)
    (r : Reservation) : Reservation :=
  if r.id = id then
    { r with
      status := st,
      cancellationComment :=
        if st = RStatus.cancelled && commentTruthy comment then comment
        else r.cancellationComment }
  else r

/-- Embedding of `updateReservationStatus` (src/unnamed/part_004 lines 288-314) as its
effect on the in-memory reservation list: the row with the given id gets
the new status (and possibly the cancellation comment); `setReservations`
then replaces exactly the entries whose id matches
(`prev.map(r => r.id === id ? updatedReservation : r)`). -/
def updateReservationStatus (rs : List Reservation) (id : String) (st : RStatus)
    (comment : Option String) : List Reservation :=
  rs.map (updateOne id st comment)

/-- Embedding of `isCheckInOverdue` inside `checkForNoShows`
(src/hooks/useAutoCancellation.ts lines 42-43): the check-in date is
today and the current time has reached the 11:00 cutoff (minute 660 of
the day). `nowMin` is the current local time's minutes after midnight. -/
def isCheckInOverdue (today : Int) (nowMin : Nat) (r : Reservation) : Bool :=
  r.checkInDate = today && decide (660 ≤ nowMin)

/-- Embedding of `isStayOverdue` inside `checkForNoShows`
(src/hooks/useAutoCancellation.ts line 46): the check-out date is
strictly before today. -/
def isStayOverdue (today : Int) (r : Reservation) : Bool :=
  decide (r.checkOutDate < today)

/-- The filter predicate of `checkForNoShows`
(src/hooks/useAutoCancellation.ts lines 22-49): only confirmed
reservations, and either overdue condition triggers. -/
def noShowCond (today : Int) (nowMin : Nat) (r : Reservation) : Bool :=
  r.status = RStatus.confirmed &&
  (isCheckInOverdue today nowMin r || isStayOverdue today r)

/-- Stand-in for `Date.toLocaleDateString()` on a calendar day number. -/
def formatDay (d : Int) : String := toString d

/-- The auto-generated cancellation comment
(src/hooks/useAutoCancellation.ts lines 66-71): the missed-departure
reason when the stay is overdue, otherwise the 11:00-cutoff reason. -/
def noShowComment (today : Int) (r : Reservation) : String :=
  if isStayOverdue today r then
    "Automatically cancelled - Guest did not check in by departure date (" ++
      formatDay r.checkOutDate ++ ")"
  else
    "Automatically cancelled - Guest did not check in by 11:00 AM on " ++
      formatDay r.checkInDate

/-- Embedding of `checkForNoShows` (src/hooks/useAutoCancellation.ts lines 11-83) as
its composite effect on the reservation list: collect the no-show
reservations, then apply `onUpdateStatus(id, 'cancelled', comment)` —
which reaches `updateReservationStatus` — for each of them in order. -/
def checkForNoShows (today : Int) (nowMin : Nat) (rs : List Reservation) :
    List Reservation :=
  let noShowReservations := rs.filter (noShowCond today nowMin)
  noShowReservations.foldl
    (fun acc r =>
      updateReservationStatus acc r.id RStatus.cancelled (some (noShowComment today r)))
    rs

/-- The Check In action of the reservation list
(src/components/ReservationForm.tsx lines 738-748): the button invoking
`onUpdateStatus(row.id, 'checked-in')` is rendered only when
`row.status === 'confirmed'`. -/
def uiCheckIn (rs : List Reservation) (id : String) : List Reservation :=
  match rs.find? (fun r => r.id = id) with
  | some r =>
    if r.status = RStatus.confirmed then
      updateReservationStatus rs id RStatus.checkedIn none
    else rs
  | none => rs

/-- The Check Out action (src/components/ReservationForm.tsx lines
750-760): rendered only when `row.status === 'checked-in'`. -/
def uiCheckOut (rs : List Reservation) (id : String) : List Reservation :=
  match rs.find? (fun r => r.id = id) with
  | some r =>
    if r.status = RStatus.checkedIn then
      updateReservationStatus rs id RStatus.checkedOut none
    else rs
  | none => rs

/-- The Cancel action (src/components/ReservationForm.tsx lines 775-786
and `handleCancelReservation`, lines 609-614): the Cancel button is
rendered only when the row's status is 'confirmed' or 'checked-in'; the
modal then issues `onUpdateStatus(id, 'cancelled', cancellationComment)`. -/
def uiCancel (rs : List Reservation) (id : String) (comment : Option String) :
    List Reservation :=
  match rs.find? (fun r => r.id = id) with
  | some r =>
    if r.status = RStatus.confirmed || r.status = RStatus.checkedIn then
      updateReservationStatus rs id RStatus.cancelled comment
    else rs
  | none => rs

/-- The reservation payload `handleSubmit` passes to `onSubmit`
(src/components/ReservationForm.tsx lines 319-330). -/
structure SubmitPayload where
  customerId : String
  checkInDate : Int
  checkOutDate : Int
  roomType : String
  specificRoomId : Option String
  numberOfGuests : Nat
  totalAmount : Int
  status : RStatus
deriving DecidableEq, Repr

/-- Embedding of `handleSubmit` (src/components/ReservationForm.tsx lines 298-330):
when `checkOutDate <= checkInDate` the submission is rejected (alert,
early return) and `onSubmit` is never reached; otherwise `onSubmit`
receives the payload with status 'confirmed' and a guest count coerced
to at least 1. -/
def handleSubmit (customerId : String) (ci co : Int) (rt : String)
    (specificRoomId : Option String) (numberOfGuests : Nat)
    (totalAmount : Int) : Option SubmitPayload :=
  if co ≤ ci then none
  else
    some
      { customerId := customerId
        checkInDate := ci
        checkOutDate := co
        roomType := rt
        specificRoomId := specificRoomId
        numberOfGuests := if numberOfGuests > 0 then numberOfGuests else 1
        totalAmount := totalAmount
        status := RStatus.confirmed }

section AvailabilityProofs

/-- The per-night overlap-and-filter test of the source loop agrees with
the spec's half-open formulation `a < d AND c < b`. -/
lemma occupiesNight_eq_spec (hs : HotelSettings) (rt : String) (night : Int)
    (r : Reservation) :
    occupiesNight hs rt (createTimeAwareDateApp night hs.checkInTime)
      (createTimeAwareDateApp (night + 1) hs.checkOutTime) r =
    specOccupiesNight hs rt night r := by
  simp only [occupiesNight, specOccupiesNight]
  rw [Bool.eq_iff_iff]
  simp only [Bool.and_eq_true, Bool.not_eq_true', Bool.or_eq_false_iff,
    decide_eq_true_eq, decide_eq_false_iff_not, not_le, not_lt]
  tauto

/-- Unrolling of the availability loop: with fuel `n` and start night `s`,
the loop visits exactly the nights `s, s+1, …, s+n-1` and keeps the
overbooked ones. -/
lemma checkRoomAvailabilityAux_eq (hs : HotelSettings) (rs : List Reservation)
    (nr : CandidateReservation) (n : Nat) (s : Int) :
    checkRoomAvailabilityAux hs rs nr n s =
      ((List.range n).map (fun (i : Nat) => s + (i : Int))).filter
        (fun night => nightOverbooked hs rs nr night) := by
  induction n generalizing s with
  | zero => simp [checkRoomAvailabilityAux]
  | succ n ih =>
    rw [List.range_succ_eq_map]
    have hmap : ((List.range n).map Nat.succ).map (fun (i : Nat) => s + (i : Int)) =
        (List.range n).map (fun (i : Nat) => (s + 1) + (i : Int)) := by
      rw [List.map_map]
      refine List.map_congr_left ?_
      intro i _
      simp only [Function.comp_apply, Nat.succ_eq_add_one]
      push_cast
      ring
    rw [checkRoomAvailabilityAux]
    cases h : nightOverbooked hs rs nr s with
    | false =>
      simp only [List.map_cons, List.filter_cons, Int.cast_zero, h,
        cond_false, List.nil_append, hmap]
      simpa [h] using ih (s + 1)
    | true =>
      simp only [List.map_cons, List.filter_cons, Int.cast_zero, h,
        cond_true, List.singleton_append, hmap]
      simpa [h] using ih (s + 1)

/-- The per-night overbooking decision agrees with the spec-side count
formulation. -/
lemma nightOverbooked_eq_spec (hs : HotelSettings) (rs : List Reservation)
    (nr : CandidateReservation) (night : Int) :
    nightOverbooked hs rs nr night =
      decide ((rs.filter (specOccupiesNight hs nr.roomType night)).length + 1 >
        ((hs.rooms.filter
          (fun room => room.isActive && room.roomTypeId = nr.roomType)).length)) := by
  simp only [nightOverbooked]
  have h1 : rs.filter (occupiesNight hs nr.roomType
      (createTimeAwareDateApp night hs.checkInTime)
      (createTimeAwareDateApp (night + 1) hs.checkOutTime)) =
      rs.filter (specOccupiesNight hs nr.roomType night) := by
    refine List.filter_congr ?_
    intro r _
    exact occupiesNight_eq_spec hs nr.roomType night r
  have h2 : ((hs.rooms.filter (fun room => room.isActive)).filter
      (fun room => room.roomTypeId = nr.roomType)) =
      hs.rooms.filter (fun room => room.isActive && room.roomTypeId = nr.roomType) := by
    rw [List.filter_filter]
    refine List.filter_congr ?_
    intro room _
    exact Bool.and_comm _ _
  rw [h1, h2]

/-- C1: `checkRoomAvailability` iterates each night of the candidate's
stay from check-in up to but not including check-out and returns exactly
the nights where the count of same-room-type, non-cancelled,
non-checked-out existing reservations overlapping the night's half-open
window (`a < d AND c < b`), plus one, exceeds the number of active rooms
of that type. -/
theorem checkRoomAvailability_eq_overbookedNightsSpec (hs : HotelSettings)
    (rs : List Reservation) (nr : CandidateReservation) :
    checkRoomAvailability hs rs nr = overbookedNightsSpec hs rs nr := by
  rw [checkRoomAvailability, overbookedNightsSpec,
    checkRoomAvailabilityAux_eq]
  refine List.filter_congr ?_
  intro night _
  exact nightOverbooked_eq_spec hs rs nr night

end AvailabilityProofs

section ClockProofs

/-- C2: the two `createTimeAwareDate` implementations diverge. At the
calendar day 0 with wall-clock time 15:00 (minute 900) in a zone with
getTimezoneOffset() = 300 (UTC-05:00), the Availability Engine's
UTC-normalized resolution (src/App.tsx) yields minute 900 while the Room
Assignment Resolver's local-normalized resolution
(src/components/ReservationForm.tsx) yields minute 1200: the engine does
not apply a single consistent time reference. -/
theorem createTimeAwareDate_divergence :
    createTimeAwareDateApp 0 900 = 900 ∧
    createTimeAwareDateForm 300 0 900 = 1200 ∧
    createTimeAwareDateApp 0 900 ≠ createTimeAwareDateForm 300 0 900 := by
  refine ⟨rfl, rfl, ?_⟩
  decide

end ClockProofs

section BackToBackProofs

/-- C3 (amended): provided the policy's check-out time is no later than
its check-in time, the overlap test of the availability check classifies
two same-day back-to-back reservations (`A.checkOutDate = B.checkInDate`)
as non-overlapping: A is not counted against any night at or after B's
check-in (all of B's nights), and B is not counted against any night
before B's check-in (all of A's nights). -/
theorem backToBack_nonOverlapping (hs : HotelSettings) (rt : String)
    (A B : Reservation) (hpol : hs.checkOutTime ≤ hs.checkInTime)
    (hab : A.checkOutDate = B.checkInDate) (night : Int) :
    (B.checkInDate ≤ night →
      occupiesNight hs rt (createTimeAwareDateApp night hs.checkInTime)
        (createTimeAwareDateApp (night + 1) hs.checkOutTime) A = false) ∧
    (night < B.checkInDate →
      occupiesNight hs rt (createTimeAwareDateApp night hs.checkInTime)
        (createTimeAwareDateApp (night + 1) hs.checkOutTime) B = false) := by
  constructor
  · intro h
    have key : createTimeAwareDateApp A.checkOutDate hs.checkOutTime ≤
        createTimeAwareDateApp night hs.checkInTime := by
      simp only [createTimeAwareDateApp]
      omega
    simp [occupiesNight, key]
  · intro h
    have key : createTimeAwareDateApp (night + 1) hs.checkOutTime ≤
        createTimeAwareDateApp B.checkInDate hs.checkInTime := by
      simp only [createTimeAwareDateApp]
      omega
    simp [occupiesNight, key]

/-- A hotel policy whose check-in time (10:00) is earlier than its
check-out time (11:00), with one active standard room. -/
def earlyCheckInSettings : HotelSettings :=
  { rooms := [{ id := "r1", roomNumber := "101", roomTypeId := "std", isActive := true }]
    checkInTime := 600
    checkOutTime := 660 }

/-- An existing confirmed standard reservation for days 98-100. -/
def resDay98to100 : Reservation :=
  { id := "A"
    customerId := "c1"
    checkInDate := 98
    checkOutDate := 100
    roomType := "std"
    specificRoomId := none
    numberOfGuests := 1
    totalAmount := 200
    status := RStatus.confirmed
    cancellationComment := none
    reminderSent := false
    createdAt := 0 }

/-- A back-to-back candidate stay for days 100-102 of the same type. -/
def candidateDay100to102 : CandidateReservation :=
  { checkInDate := 100, checkOutDateRes := 102, roomType := "std" }

/-- C3 counterexample: under the policy with check-in 10:00 / check-out
11:00, an existing reservation ending on day 100 IS counted against the
back-to-back candidate starting on day 100 — the candidate's first night
is reported overbooked even though `checkOut == checkIn`. The claim's
"for every hotel policy" fails. -/
theorem backToBack_counterexample :
    resDay98to100.checkOutDate = candidateDay100to102.checkInDate ∧
    resDay98to100.roomType = candidateDay100to102.roomType ∧
    occupiesNight earlyCheckInSettings "std"
      (createTimeAwareDateApp 100 earlyCheckInSettings.checkInTime)
      (createTimeAwareDateApp 101 earlyCheckInSettings.checkOutTime)
      resDay98to100 = true ∧
    checkRoomAvailability earlyCheckInSettings [resDay98to100]
      candidateDay100to102 = [100] := by
  refine ⟨rfl, rfl, by decide, by decide⟩

/-- Witness for the amended C3 theorem at the standard policy (check-in
15:00, check-out 11:00): with `A.checkOutDate = 100 = B.checkInDate`, A
does not occupy B's first night (day 100). -/
theorem backToBack_witness :
    occupiesNight
      { rooms := [], checkInTime := 900, checkOutTime := 660 } "std"
      (createTimeAwareDateApp 100 (900 : Nat))
      (createTimeAwareDateApp 101 (660 : Nat))
      resDay98to100 = false := by
  have h := backToBack_nonOverlapping
    { rooms := [], checkInTime := 900, checkOutTime := 660 } "std"
    resDay98to100
    { resDay98to100 with checkInDate := 100, checkOutDate := 102 }
    (by decide) rfl 100
  exact h.1 (by decide)

end BackToBackProofs

section RoomResolverProofs

/-- C4: every room returned by `getAvailableRooms` is an active room of
the requested type drawn from the roster, and is pinned by no existing
reservation that is not the one being edited, is neither cancelled nor
checked-out, is of the requested type, and whose effective window
overlaps the whole-stay window. -/
theorem getAvailableRooms_sound (tz : Int) (rooms : List Room)
    (existing : List Reservation) (hs : HotelSettings) (rt : String)
    (ci co : Int) (excludeId : Option String) :
    ∀ room ∈ getAvailableRooms tz rooms existing hs rt ci co excludeId,
      (room ∈ rooms ∧ room.roomTypeId = rt ∧ room.isActive = true) ∧
      ∀ r ∈ existing,
        ¬(excludeId = some r.id) →
        r.status ≠ RStatus.cancelled →
        r.status ≠ RStatus.checkedOut →
        r.roomType = rt →
        createTimeAwareDateForm tz ci hs.checkInTime <
          createTimeAwareDateForm tz r.checkOutDate hs.checkOutTime →
        createTimeAwareDateForm tz r.checkInDate hs.checkInTime <
          createTimeAwareDateForm tz co hs.checkOutTime →
        r.specificRoomId ≠ some room.id := by
  intro room hmem
  simp only [getAvailableRooms] at hmem
  have hmem2 := List.take_subset _ _ hmem
  rw [List.mem_filter] at hmem2
  obtain ⟨hty, hnc⟩ := hmem2
  rw [List.mem_filter] at hty
  obtain ⟨hrooms, htyb⟩ := hty
  simp only [Bool.and_eq_true, decide_eq_true_eq] at htyb
  refine ⟨⟨hrooms, htyb.1, htyb.2⟩, ?_⟩
  intro r hr hex hc1 hc2 hrt hov1 hov2 hspec
  have hkeep : formKeepsReservation tz hs rt excludeId
      (createTimeAwareDateForm tz ci hs.checkInTime)
      (createTimeAwareDateForm tz co hs.checkOutTime) r = true := by
    simp only [createTimeAwareDateForm] at hov1 hov2
    simp [formKeepsReservation, hex, hc1, hc2, hrt, createTimeAwareDateForm]
    omega
  have hpin : room.id ∈ (existing.filter
      (formKeepsReservation tz hs rt excludeId
        (createTimeAwareDateForm tz ci hs.checkInTime)
        (createTimeAwareDateForm tz co hs.checkOutTime))).filterMap
      (fun r => r.specificRoomId) :=
    List.mem_filterMap.mpr ⟨r, List.mem_filter.mpr ⟨hr, hkeep⟩, hspec⟩
  have hni : room.id ∉ (existing.filter
      (formKeepsReservation tz hs rt excludeId
        (createTimeAwareDateForm tz ci hs.checkInTime)
        (createTimeAwareDateForm tz co hs.checkOutTime))).filterMap
      (fun r => r.specificRoomId) := by
    simpa using hnc
  exact hni hpin

/-- Two active standard rooms for the C4 scenario. -/
def stdRoom1 : Room :=
  { id := "room1", roomNumber := "101", roomTypeId := "std", isActive := true }

/-- Second active standard room for the C4 scenario. -/
def stdRoom2 : Room :=
  { id := "room2", roomNumber := "102", roomTypeId := "std", isActive := true }

/-- A confirmed reservation pinning room1 for days 10-12. -/
def pinnedRes : Reservation :=
  { id := "P"
    customerId := "c1"
    checkInDate := 10
    checkOutDate := 12
    roomType := "std"
    specificRoomId := some "room1"
    numberOfGuests := 2
    totalAmount := 300
    status := RStatus.confirmed
    cancellationComment := none
    reminderSent := false
    createdAt := 0 }

/-- Standard policy: check-in 15:00 (minute 900), check-out 11:00
(minute 660), rooms `room1` and `room2`. -/
def stdSettings : HotelSettings :=
  { rooms := [stdRoom1, stdRoom2], checkInTime := 900, checkOutTime := 660 }

/-- Witness for C4: booking days 11-13 with room1 pinned by `pinnedRes`,
the returned room (`room2`) satisfies the soundness theorem; in
particular `pinnedRes` does not pin it. -/
theorem getAvailableRooms_sound_witness :
    pinnedRes.specificRoomId ≠ some stdRoom2.id :=
  ((getAvailableRooms_sound 0 [stdRoom1, stdRoom2] [pinnedRes] stdSettings
      "std" 11 13 none stdRoom2 (by decide)).2
    pinnedRes (by decide) (by decide) (by decide) (by decide)
    (by decide) (by decide) (by decide))

end RoomResolverProofs

section NextDateProofs

/-- Behaviour of the bounded scan when it succeeds: the returned date is
within the scanned range, its pool is non-empty, and every earlier
scanned date has an empty pool. -/
lemma getNextAvailableAux_spec (tz : Int) (rooms : List Room)
    (existing : List Reservation) (hs : HotelSettings) (rt : String)
    (excludeId : Option String) (dur : Int) :
    ∀ (n : Nat) (s r : Int),
      getNextAvailableAux tz rooms existing hs rt excludeId dur n s = some r →
      s ≤ r ∧ r < s + (n : Int) ∧
      0 < availableCountForPeriod tz rooms existing hs rt excludeId r (r + dur) ∧
      ∀ d, s ≤ d → d < r →
        availableCountForPeriod tz rooms existing hs rt excludeId d (d + dur) = 0 := by
  intro n
  induction n with
  | zero =>
    intro s r h
    simp [getNextAvailableAux] at h
  | succ n ih =>
    intro s r h
    rw [getNextAvailableAux] at h
    split at h
    case isTrue hc =>
      injection h with h'
      subst h'
      refine ⟨le_refl s, by push_cast; omega, hc, ?_⟩
      intro d hd1 hd2
      omega
    case isFalse hc =>
      obtain ⟨h1, h2, h3, h4⟩ := ih (s + 1) r h
      refine ⟨by omega, by push_cast at h2 ⊢; omega, h3, ?_⟩
      intro d hd1 hd2
      rcases eq_or_lt_of_le hd1 with heq | hlt
      · subst heq
        omega
      · exact h4 d (by omega) hd2

/-- Success case of the full search: the result lies in the scanned
window `[max(today, checkInDate+1), +365)`, is feasible, and is the
first feasible date of the window. -/
lemma getNextAvailableDate_some_spec (tz : Int) (rooms : List Room)
    (existing : List Reservation) (hs : HotelSettings) (rt : String)
    (ci co today : Int) (excludeId : Option String) (r : Int)
    (h : getNextAvailableDateForRequestedDuration tz rooms existing hs rt
          ci co today excludeId = some r) :
    max today (ci + 1) ≤ r ∧ r < max today (ci + 1) + 365 ∧
    0 < availableCountForPeriod tz rooms existing hs rt excludeId r (r + (co - ci)) ∧
    ∀ d, max today (ci + 1) ≤ d → d < r →
      availableCountForPeriod tz rooms existing hs rt excludeId d (d + (co - ci)) = 0 := by
  rw [getNextAvailableDateForRequestedDuration] at h
  split at h
  · exact absurd h (by simp)
  · have h' : (if (rooms.filter
          (fun room => decide (room.roomTypeId = rt) && room.isActive)).length = 0
        then (none : Option Int)
        else getNextAvailableAux tz rooms existing hs rt excludeId (co - ci)
          365 (max today (ci + 1))) = some r := h
    clear h
    split at h'
    · exact absurd h' (by simp)
    · have hspec := getNextAvailableAux_spec tz rooms existing hs rt excludeId
        (co - ci) 365 (max today (ci + 1)) r h'
      refine ⟨hspec.1, ?_, hspec.2.2.1, hspec.2.2.2⟩
      have := hspec.2.1
      push_cast at this
      omega

/-- C6: the next-available-date search scans at most 365 candidate start
dates from `max(today, fromDate+1)`; when it returns a date, that date's
§4.3 pool for the window of the requested duration is non-empty and every
earlier candidate's pool is empty; consequently the search is monotonic —
it never returns a date after a feasible date `D` at or beyond the scan's
starting bound. -/
theorem getNextAvailableDate_first_and_monotone (tz : Int) (rooms : List Room)
    (existing : List Reservation) (hs : HotelSettings) (rt : String)
    (ci co today : Int) (excludeId : Option String) :
    (∀ r, getNextAvailableDateForRequestedDuration tz rooms existing hs rt
        ci co today excludeId = some r →
      max today (ci + 1) ≤ r ∧ r < max today (ci + 1) + 365 ∧
      0 < availableCountForPeriod tz rooms existing hs rt excludeId r (r + (co - ci)) ∧
      ∀ d, max today (ci + 1) ≤ d → d < r →
        availableCountForPeriod tz rooms existing hs rt excludeId d (d + (co - ci)) = 0) ∧
    (∀ D, max today (ci + 1) ≤ D →
      0 < availableCountForPeriod tz rooms existing hs rt excludeId D (D + (co - ci)) →
      ∀ r, getNextAvailableDateForRequestedDuration tz rooms existing hs rt
          ci co today excludeId = some r →
      r ≤ D) := by
  refine ⟨fun r h => getNextAvailableDate_some_spec tz rooms existing hs rt
    ci co today excludeId r h, ?_⟩
  intro D hD hfeas r h
  by_contra hgt
  push_neg at hgt
  have hspec := getNextAvailableDate_some_spec tz rooms existing hs rt
    ci co today excludeId r h
  have := hspec.2.2.2 D hD hgt
  omega

/-- Witness for C6: one active standard room, no reservations, request
days 10-12 seen from day 20. The scan's bound is `max 20 11 = 20`, day 20
is feasible, the search returns day 20, and the theorem yields `20 ≤ 20`. -/
theorem getNextAvailableDate_witness : (20 : Int) ≤ 20 :=
  (getNextAvailableDate_first_and_monotone 0 [stdRoom1] [] stdSettings "std"
      10 12 20 none).2 20 (by decide) (by decide) 20 (by decide)

end NextDateProofs

section SweepProofs

/-- The auto-generated comment is never the empty string, so the
truthiness gate of `updateReservationStatus` lets it through. -/
lemma noShowComment_ne_empty (today : Int) (r : Reservation) :
    noShowComment today r ≠ "" := by
  unfold noShowComment
  split <;> intro h <;>
    (have h2 := congrArg String.length h
     simp [String.length_append] at h2
     first
       | exact absurd h2.1.1 (by decide)
       | exact absurd h2.1 (by decide))

/-- The helper `updateOne` never changes the reservation id. -/
lemma updateOne_id (id : String) (st : RStatus) (comment : Option String)
    (r : Reservation) : (updateOne id st comment r).id = r.id := by
  unfold updateOne
  split <;> rfl

/-- The per-element effect of the sweep, as the source computes it: a
no-show gets status cancelled and the auto-generated comment; everything
else is untouched. -/
def noShowApply (today : Int) (nowMin : Nat) (r : Reservation) : Reservation :=
  if noShowCond today nowMin r then
    { r with
      status := RStatus.cancelled,
      cancellationComment := some (noShowComment today r) }
  else r

/-- A fold of by-id updates over a whole-list map equals a map of
per-element folds. -/
lemma foldl_updates (today : Int) (todo rs : List Reservation) :
    todo.foldl
      (fun acc r => updateReservationStatus acc r.id RStatus.cancelled
        (some (noShowComment today r))) rs
    = rs.map (fun x => todo.foldl
        (fun y t => updateOne t.id RStatus.cancelled (some (noShowComment today t)) y) x) := by
  induction todo generalizing rs with
  | nil => simp
  | cons t ts ih =>
    simp only [List.foldl_cons]
    rw [ih, updateReservationStatus, List.map_map]
    rfl

/-- A fold of by-id updates whose ids all differ from the accumulator's
id is the identity. -/
lemma foldl_updateOne_of_ne (today : Int) (todo : List Reservation)
    (x : Reservation) (h : ∀ t ∈ todo, t.id ≠ x.id) :
    todo.foldl
      (fun y t => updateOne t.id RStatus.cancelled (some (noShowComment today t)) y) x
    = x := by
  induction todo with
  | nil => rfl
  | cons t ts ih =>
    simp only [List.foldl_cons]
    have hne : ¬(x.id = t.id) := fun he => h t (List.mem_cons_self t ts) he.symm
    rw [show updateOne t.id RStatus.cancelled (some (noShowComment today t)) x = x by
      unfold updateOne; rw [if_neg hne]]
    exact ih (fun t' ht' => h t' (List.mem_cons_of_mem t ht'))

/-- A fold of by-id updates over a duplicate-free work list touches the
accumulator exactly when the accumulator itself is in the work list. -/
lemma foldl_updateOne_eq (today : Int) (todo : List Reservation)
    (x : Reservation) (hnd : todo.Nodup)
    (huniq : ∀ t ∈ todo, t.id = x.id → t = x) :
    todo.foldl
      (fun y t => updateOne t.id RStatus.cancelled (some (noShowComment today t)) y) x
    = if x ∈ todo then
        { x with
          status := RStatus.cancelled,
          cancellationComment := some (noShowComment today x) }
      else x := by
  induction todo with
  | nil => simp
  | cons t ts ih =>
    simp only [List.foldl_cons]
    rcases List.nodup_cons.mp hnd with ⟨htn, htsnd⟩
    by_cases hxt : t = x
    · subst hxt
      rw [show updateOne t.id RStatus.cancelled (some (noShowComment today t)) t =
          { t with
            status := RStatus.cancelled,
            cancellationComment := some (noShowComment today t) } by
        unfold updateOne
        simp [commentTruthy, noShowComment_ne_empty today t]]
      rw [foldl_updateOne_of_ne today ts _ ?_]
      · simp
      · intro t' ht' hid
        simp only at hid
        exact htn (huniq t' (List.mem_cons_of_mem t ht') hid ▸ ht')
    · have hne : ¬(x.id = t.id) :=
        fun he => hxt (huniq t (List.mem_cons_self t ts) he.symm)
      rw [show updateOne t.id RStatus.cancelled (some (noShowComment today t)) x = x by
        unfold updateOne; rw [if_neg hne]]
      rw [ih htsnd (fun t' ht' => huniq t' (List.mem_cons_of_mem t ht'))]
      by_cases hmem : x ∈ ts
      · rw [if_pos hmem, if_pos (List.mem_cons_of_mem t hmem)]
      · rw [if_neg hmem, if_neg
          (fun hm => (List.mem_cons.mp hm).elim (fun he => hxt he.symm) hmem)]

/-- With pairwise-distinct reservation ids, the sweep is the pointwise
map of its per-element effect. -/
lemma checkForNoShows_eq_map (today : Int) (nowMin : Nat)
    (rs : List Reservation) (hnd : (rs.map Reservation.id).Nodup) :
    checkForNoShows today nowMin rs = rs.map (noShowApply today nowMin) := by
  have hrs : rs.Nodup := hnd.of_map
  rw [checkForNoShows, foldl_updates]
  refine List.map_congr_left ?_
  intro x hx
  have huniq : ∀ t ∈ rs.filter (noShowCond today nowMin), t.id = x.id → t = x := by
    intro t ht hid
    exact List.inj_on_of_nodup_map hnd (List.mem_filter.mp ht).1 hx hid
  rw [foldl_updateOne_eq today _ x (hrs.filter _) huniq]
  by_cases hc : noShowCond today nowMin x = true
  · rw [if_pos (List.mem_filter.mpr ⟨hx, hc⟩), noShowApply, if_pos hc]
  · rw [if_neg (fun hmem => hc (List.mem_filter.mp hmem).2), noShowApply,
      if_neg hc]

/-- Claim-side description of the sweep's per-reservation effect
(spec §4.5): a confirmed reservation whose check-in date is today and
whose current time has reached the 11:00 cutoff is cancelled with the
cutoff reason; a confirmed reservation whose check-out date is strictly
before today is cancelled with the missed-departure reason; everything
else — any non-confirmed status included — is untouched. -/
def sweepSpecUpdate (today : Int) (nowMin : Nat) (r : Reservation) : Reservation :=
  if r.status = RStatus.confirmed ∧ r.checkInDate = today ∧ 660 ≤ nowMin then
    { r with
      status := RStatus.cancelled,
      cancellationComment :=
        some ("Automatically cancelled - Guest did not check in by 11:00 AM on " ++
          formatDay r.checkInDate) }
  else if r.status = RStatus.confirmed ∧ r.checkOutDate < today then
    { r with
      status := RStatus.cancelled,
      cancellationComment :=
        some ("Automatically cancelled - Guest did not check in by departure date (" ++
          formatDay r.checkOutDate ++ ")") }
  else r

/-- Under the stay invariant `checkIn < checkOut`, the source's
per-element sweep effect coincides with the claim-side description. -/
lemma noShowApply_eq_spec (today : Int) (nowMin : Nat) (r : Reservation)
    (hinv : r.checkInDate < r.checkOutDate) :
    noShowApply today nowMin r = sweepSpecUpdate today nowMin r := by
  simp only [noShowApply, noShowCond, isCheckInOverdue, isStayOverdue,
    sweepSpecUpdate, noShowComment]
  by_cases hst : r.status = RStatus.confirmed
  · by_cases h3 : r.checkOutDate < today
    · have h1 : ¬ r.checkInDate = today := by omega
      simp [hst, h1, h3]
    · by_cases h1 : r.checkInDate = today
      · by_cases h2 : 660 ≤ nowMin
        · simp [hst, h1, h2, h3]
        · simp [hst, h1, h2, h3]
      · simp [hst, h1, h3]
  · simp [hst]

/-- C5: over a reservation set with distinct ids satisfying the stay
invariant, the sweep transitions to cancelled exactly the confirmed
reservations matching one of the two no-show conditions, with the reason
the claim assigns to each condition, and touches nothing else. -/
theorem checkForNoShows_matches_spec (today : Int) (nowMin : Nat)
    (rs : List Reservation) (hnd : (rs.map Reservation.id).Nodup)
    (hinv : ∀ r ∈ rs, r.checkInDate < r.checkOutDate) :
    checkForNoShows today nowMin rs = rs.map (sweepSpecUpdate today nowMin) := by
  rw [checkForNoShows_eq_map today nowMin rs hnd]
  exact List.map_congr_left (fun r hr => noShowApply_eq_spec today nowMin r (hinv r hr))

/-- C8: the policy-driven sweep is idempotent on any reservation set with
distinct ids — the second pass finds nothing confirmed among the
reservations the first pass cancelled and changes nothing. -/
theorem checkForNoShows_idempotent (today : Int) (nowMin : Nat)
    (rs : List Reservation) (hnd : (rs.map Reservation.id).Nodup) :
    checkForNoShows today nowMin (checkForNoShows today nowMin rs) =
      checkForNoShows today nowMin rs := by
  have hid : ∀ r, (noShowApply today nowMin r).id = r.id := by
    intro r
    unfold noShowApply
    split <;> rfl
  have hnd2 : ((checkForNoShows today nowMin rs).map Reservation.id).Nodup := by
    rw [checkForNoShows_eq_map today nowMin rs hnd, List.map_map]
    have hcomp : (Reservation.id ∘ noShowApply today nowMin) = Reservation.id :=
      funext hid
    rw [hcomp]
    exact hnd
  rw [checkForNoShows_eq_map _ _ _ hnd2, checkForNoShows_eq_map _ _ _ hnd,
    List.map_map]
  refine List.map_congr_left ?_
  intro r hr
  simp only [Function.comp_apply]
  by_cases hc : noShowCond today nowMin r = true
  · have hc2 : noShowCond today nowMin
        { r with
          status := RStatus.cancelled,
          cancellationComment := some (noShowComment today r) } = false := by
      simp [noShowCond]
    simp [noShowApply, hc, hc2]
  · simp [noShowApply, hc]

/-- A confirmed reservation whose check-in day is 100 (today in the
witness scenario). -/
def noShowRes : Reservation :=
  { id := "n1"
    customerId := "c1"
    checkInDate := 100
    checkOutDate := 102
    roomType := "std"
    specificRoomId := none
    numberOfGuests := 1
    totalAmount := 100
    status := RStatus.confirmed
    cancellationComment := none
    reminderSent := false
    createdAt := 0 }

/-- A checked-in reservation; the sweep must not touch it. -/
def checkedInRes : Reservation :=
  { id := "n2"
    customerId := "c2"
    checkInDate := 98
    checkOutDate := 99
    roomType := "std"
    specificRoomId := none
    numberOfGuests := 1
    totalAmount := 100
    status := RStatus.checkedIn
    cancellationComment := none
    reminderSent := false
    createdAt := 0 }

/-- Witness for C5: on day 100 at 11:40 (minute 700), the confirmed
same-day reservation is cancelled with the 11:00 reason and the
checked-in one is untouched. -/
theorem checkForNoShows_matches_spec_witness :
    checkForNoShows 100 700 [noShowRes, checkedInRes] =
      [{ noShowRes with
          status := RStatus.cancelled,
          cancellationComment :=
            some ("Automatically cancelled - Guest did not check in by 11:00 AM on " ++
              formatDay (100 : Int)) },
        checkedInRes] := by
  rw [checkForNoShows_matches_spec 100 700 [noShowRes, checkedInRes]
    (by decide) (by decide)]
  rfl

/-- Witness for C8 at a concrete two-element reservation set. -/
theorem checkForNoShows_idempotent_witness :
    checkForNoShows 100 700 (checkForNoShows 100 700 [noShowRes, checkedInRes]) =
      checkForNoShows 100 700 [noShowRes, checkedInRes] :=
  checkForNoShows_idempotent 100 700 [noShowRes, checkedInRes] (by decide)

end SweepProofs

section StateMachineProofs

/-- A reservation whose id differs from the updated one is returned
unchanged by `updateReservationStatus`. -/
lemma mem_update_of_ne (rs : List Reservation) (id : String) (st : RStatus)
    (c : Option String) (r : Reservation) (hr : r ∈ rs) (hne : r.id ≠ id) :
    r ∈ updateReservationStatus rs id st c := by
  rw [updateReservationStatus]
  refine List.mem_map.mpr ⟨r, hr, ?_⟩
  unfold updateOne
  rw [if_neg hne]

/-- If the reservation found under the updated id is non-terminal, a
terminal reservation of the set survives the update unchanged. -/
lemma mem_after_gated_update (rs : List Reservation)
    (hnd : (rs.map Reservation.id).Nodup) (r : Reservation) (hr : r ∈ rs)
    (hterm : r.status = RStatus.checkedOut ∨ r.status = RStatus.cancelled)
    (id : String) (st : RStatus) (c : Option String) (t : Reservation)
    (hfind : rs.find? (fun x => x.id = id) = some t)
    (hstat : t.status ≠ RStatus.checkedOut ∧ t.status ≠ RStatus.cancelled) :
    r ∈ updateReservationStatus rs id st c := by
  refine mem_update_of_ne rs id st c r hr ?_
  intro heq
  have ht_mem := List.mem_of_find?_eq_some hfind
  have htid : t.id = id := by
    have := List.find?_some hfind
    simpa using this
  have hrt : r = t :=
    List.inj_on_of_nodup_map hnd hr ht_mem (by rw [heq, htid])
  rcases hterm with h | h
  · rw [hrt] at h
    exact hstat.1 h
  · rw [hrt] at h
    exact hstat.2 h

/-- C7 (amended): every status-transition the system actually issues —
the check-in, check-out and cancel actions, each gated by the row's
current status, and the policy-driven sweep, gated on `confirmed` —
leaves every terminal-state (checked-out or cancelled) reservation of a
duplicate-free set unchanged in the set. The unguarded
`updateReservationStatus` primitive itself does not have this property
(see the counterexample). -/
theorem terminal_preserved_by_system_ops (rs : List Reservation)
    (hnd : (rs.map Reservation.id).Nodup) (r : Reservation) (hr : r ∈ rs)
    (hterm : r.status = RStatus.checkedOut ∨ r.status = RStatus.cancelled)
    (id : String) (comment : Option String) (today : Int) (nowMin : Nat) :
    r ∈ uiCheckIn rs id ∧ r ∈ uiCheckOut rs id ∧
    r ∈ uiCancel rs id comment ∧ r ∈ checkForNoShows today nowMin rs := by
  refine ⟨?_, ?_, ?_, ?_⟩
  · cases hfind : rs.find? (fun x => x.id = id) with
    | none => simpa [uiCheckIn, hfind] using hr
    | some t =>
      by_cases hst : t.status = RStatus.confirmed
      · simp only [uiCheckIn, hfind, if_pos hst]
        exact mem_after_gated_update rs hnd r hr hterm id RStatus.checkedIn
          none t hfind (by rw [hst]; exact ⟨by decide, by decide⟩)
      · simpa [uiCheckIn, hfind, hst] using hr
  · cases hfind : rs.find? (fun x => x.id = id) with
    | none => simpa [uiCheckOut, hfind] using hr
    | some t =>
      by_cases hst : t.status = RStatus.checkedIn
      · simp only [uiCheckOut, hfind, if_pos hst]
        exact mem_after_gated_update rs hnd r hr hterm id RStatus.checkedOut
          none t hfind (by rw [hst]; exact ⟨by decide, by decide⟩)
      · simpa [uiCheckOut, hfind, hst] using hr
  · cases hfind : rs.find? (fun x => x.id = id) with
    | none => simpa [uiCancel, hfind] using hr
    | some t =>
      by_cases hst : t.status = RStatus.confirmed ∨ t.status = RStatus.checkedIn
      · simp only [uiCancel, hfind]
        rw [if_pos (show (decide (t.status = RStatus.confirmed) ||
            decide (t.status = RStatus.checkedIn)) = true by
          rcases hst with h | h <;> simp [h])]
        refine mem_after_gated_update rs hnd r hr hterm id RStatus.cancelled
          comment t hfind ?_
        rcases hst with h | h <;> rw [h] <;> exact ⟨by decide, by decide⟩
      · have h1 : t.status ≠ RStatus.confirmed := fun h => hst (Or.inl h)
        have h2 : t.status ≠ RStatus.checkedIn := fun h => hst (Or.inr h)
        simpa [uiCancel, hfind, h1, h2] using hr
  · rw [checkForNoShows_eq_map today nowMin rs hnd]
    refine List.mem_map.mpr ⟨r, hr, ?_⟩
    have hc : noShowCond today nowMin r = false := by
      rcases hterm with h | h <;> simp [noShowCond, h]
    rw [noShowApply, if_neg (by rw [hc]; exact Bool.false_ne_true)]

/-- A cancelled reservation, used to exhibit the unguarded primitive. -/
def cancelledRes : Reservation :=
  { id := "x1"
    customerId := "c1"
    checkInDate := 50
    checkOutDate := 52
    roomType := "std"
    specificRoomId := none
    numberOfGuests := 1
    totalAmount := 100
    status := RStatus.cancelled
    cancellationComment := some "guest call"
    reminderSent := false
    createdAt := 0 }

/-- C7 counterexample: `updateReservationStatus` itself performs no gate
on the current status — called on a cancelled reservation with target
status 'confirmed' it moves the reservation out of the terminal state,
so the claim quantified over *any* call to `updateReservationStatus` is
false. -/
theorem terminal_state_counterexample :
    cancelledRes.status = RStatus.cancelled ∧
    (updateReservationStatus [cancelledRes] "x1" RStatus.confirmed none).map
      Reservation.status = [RStatus.confirmed] := by
  exact ⟨rfl, by decide⟩

/-- Witness for the amended C7 theorem: in a set holding one cancelled
and one confirmed reservation, the cancelled one survives all four
system operations targeting the confirmed one's id. -/
theorem terminal_preserved_witness :
    cancelledRes ∈ uiCheckIn [cancelledRes, noShowRes] "n1" ∧
    cancelledRes ∈ uiCheckOut [cancelledRes, noShowRes] "n1" ∧
    cancelledRes ∈ uiCancel [cancelledRes, noShowRes] "n1" (some "late") ∧
    cancelledRes ∈ checkForNoShows 100 700 [cancelledRes, noShowRes] :=
  terminal_preserved_by_system_ops [cancelledRes, noShowRes] (by decide)
    cancelledRes (by decide) (Or.inr rfl) "n1" (some "late") 100 700

end StateMachineProofs

section SubmitProofs

/-- C9: whenever the parsed check-out date is at or before the check-in
date (zero-night stays included), `handleSubmit` rejects the submission
and `onSubmit` receives nothing. -/
theorem handleSubmit_rejects_invalid (customerId : String) (ci co : Int)
    (rt : String) (specificRoomId : Option String) (numberOfGuests : Nat)
    (totalAmount : Int) (h : co ≤ ci) :
    handleSubmit customerId ci co rt specificRoomId numberOfGuests totalAmount =
      none := by
  unfold handleSubmit
  rw [if_pos h]

/-- Witness for C9 at a zero-night stay (check-out equals check-in). -/
theorem handleSubmit_rejects_witness :
    handleSubmit "c1" 5 5 "std" none 2 100 = none :=
  handleSubmit_rejects_invalid "c1" 5 5 "std" none 2 100 (by decide)

end SubmitProofs

section FrameProofs

/-- C10: every element of the updated list comes from an element of the
input list with identical id, dates, room type, specific room, guest
count, amount, reminder flag and creation timestamp; elements with a
different id are wholly unchanged; and the cancellation comment is
unchanged unless the target status is cancelled and a truthy comment was
supplied. -/
theorem updateReservationStatus_frame (rs : List Reservation) (id : String)
    (st : RStatus) (c : Option String) :
    ∀ r' ∈ updateReservationStatus rs id st c, ∃ r ∈ rs,
      r'.id = r.id ∧
      r'.customerId = r.customerId ∧
      r'.checkInDate = r.checkInDate ∧
      r'.checkOutDate = r.checkOutDate ∧
      r'.roomType = r.roomType ∧
      r'.specificRoomId = r.specificRoomId ∧
      r'.numberOfGuests = r.numberOfGuests ∧
      r'.totalAmount = r.totalAmount ∧
      r'.reminderSent = r.reminderSent ∧
      r'.createdAt = r.createdAt ∧
      (r.id ≠ id → r' = r) ∧
      (¬(st = RStatus.cancelled ∧ commentTruthy c = true) →
        r'.cancellationComment = r.cancellationComment) := by
  intro r' h
  rw [updateReservationStatus] at h
  obtain ⟨r, hr, rfl⟩ := List.mem_map.mp h
  refine ⟨r, hr, ?_⟩
  unfold updateOne
  by_cases hid : r.id = id
  · rw [if_pos hid]
    refine ⟨rfl, rfl, rfl, rfl, rfl, rfl, rfl, rfl, rfl, rfl,
      fun hno => absurd hid hno, ?_⟩
    intro hcc
    show (if st = RStatus.cancelled && commentTruthy c then c
      else r.cancellationComment) = r.cancellationComment
    rw [if_neg]
    intro hb
    rw [Bool.and_eq_true] at hb
    exact hcc ⟨by simpa using hb.1, hb.2⟩
  · rw [if_neg hid]
    exact ⟨rfl, rfl, rfl, rfl, rfl, rfl, rfl, rfl, rfl, rfl,
      fun _ => rfl, fun _ => rfl⟩

/-- The result of checking in `noShowRes` via the status update. -/
def updatedNoShowRes : Reservation := { noShowRes with status := RStatus.checkedIn }

/-- Witness for C10: updating `noShowRes` to checked-in touches only the
status — all frame fields coincide and the comment survives. -/
theorem updateReservationStatus_frame_witness :
    ∃ r ∈ [noShowRes],
      updatedNoShowRes.id = r.id ∧
      updatedNoShowRes.customerId = r.customerId ∧
      updatedNoShowRes.checkInDate = r.checkInDate ∧
      updatedNoShowRes.checkOutDate = r.checkOutDate ∧
      updatedNoShowRes.roomType = r.roomType ∧
      updatedNoShowRes.specificRoomId = r.specificRoomId ∧
      updatedNoShowRes.numberOfGuests = r.numberOfGuests ∧
      updatedNoShowRes.totalAmount = r.totalAmount ∧
      updatedNoShowRes.reminderSent = r.reminderSent ∧
      updatedNoShowRes.createdAt = r.createdAt ∧
      (r.id ≠ "n1" → updatedNoShowRes = r) ∧
      (¬(RStatus.checkedIn = RStatus.cancelled ∧ commentTruthy none = true) →
        updatedNoShowRes.cancellationComment = r.cancellationComment) :=
  updateReservationStatus_frame [noShowRes] "n1" RStatus.checkedIn none
    updatedNoShowRes (by decide)

end FrameProofs

end StayPalms
